import Mathlib

/-!
Shallow embedding of the desktop-wakatime core (window classification,
heartbeat throttling, dispatcher caches, update coordination) together with
theorems settling the specification claims.

Sources embedded:
- src/electron/helpers/monitored-app.ts  (MonitoredApp, LinuxWindowManager)
- src/electron/watchers/wakatime.ts      (Wakatime)
-/

namespace DesktopWakatime

/-- Category enumeration from src/electron/utils/types (the fixed string union
used throughout `monitored-app.ts` and `wakatime.ts`). -/
inductive Category where
  | browsing
  | communicating
  | coding
  | debugging
  | writingDocs
  | designing
  | meeting
  deriving DecidableEq, Repr

/-- AppData fields consumed by the embedded code (id, browser flag, display
name, version); the remaining catalog fields are never read by the claims'
code paths. -/
structure AppData where
  id : String
  isBrowser : Bool
  name : String
  version : Option String := none
  deriving DecidableEq, Repr

/-- DesktopWindowInfo from `window-manager` (process metadata attached to a
window snapshot). -/
structure DesktopWindowInfo where
  path : Option String
  name : String
  execName : Option String := none
  deriving DecidableEq, Repr

/-- DesktopWindow snapshot (id omitted; title, optional URL, process info are
the fields read by `MonitoredApp` and `Wakatime`). -/
structure DesktopWindow where
  title : String
  url : Option String
  info : DesktopWindowInfo
  deriving DecidableEq, Repr

/-- ThrottleState: the three mutable fields of class `Wakatime` consulted by
`shouldSendHeartbeat` (`lastEntitiy`, `lastTime`, `lastCategory`).  The field
name `lastEntitiy` keeps the source's spelling.  Time is in seconds
(`Date.now() / 1000`), modelled as a rational. -/
structure ThrottleState where
  lastEntitiy : String
  lastTime : ℚ
  lastCategory : Category
  deriving DecidableEq, Repr

/-- Initial Wakatime throttle fields: `lastEntitiy = ""`, `lastTime = 0`,
`lastCategory = "coding"`. -/
def ThrottleState.init : ThrottleState :=
  { lastEntitiy := "", lastTime := 0, lastCategory := .coding }

/-- Wakatime.shouldSendHeartbeat (wakatime.ts lines 109-127).  The source is a
chain of `if (...) return true;` with an implicit `undefined` (falsy) result
when no condition holds; as a boolean decision this is the disjunction of the
four conditions.  `entity &&` tests JavaScript truthiness of the string,
i.e. non-emptiness. -/
def shouldSendHeartbeat (entity : String) (time : ℚ) (isWrite : Bool)
    (category : Category) (s : ThrottleState) : Bool :=
  if isWrite then true
  else if category ≠ s.lastCategory then true
  else if entity ≠ "" ∧ s.lastEntitiy ≠ entity then true
  else if s.lastTime + 120 < time then true
  else false

/-- Prefix of a character list strictly before the first occurrence of the
separator `sep`; the whole list when `sep` does not occur.  This is the
semantics of JavaScript `s.split(sep)[0]` for a non-empty separator. -/
def takeBeforeSep (sep : List Char) : List Char → List Char
  | [] => []
  | c :: rest =>
      if sep.isPrefixOf (c :: rest) then []
      else c :: takeBeforeSep sep rest

/-- JavaScript `title.split(" - ")[0]`: the segment before the first
`" - "` occurrence. -/
def splitHead (s : String) : String :=
  String.mk (takeBeforeSep (" - ".data) s.data)

/-- Default branch of `MonitoredApp.title`: a truthy (non-empty) window title
is split on the first `" - "`, otherwise the process display name is
returned. -/
def titleDefault (w : DesktopWindow) : Option String :=
  if w.title ≠ "" then some (splitHead w.title) else some w.info.name

/-- MonitoredApp.title (monitored-app.ts lines 159-199).  The first group of
catalog ids returns the literal template string
`` `${app?.id} should never use window title as entity` `` (the source does
not return null there); figma, warp and postman split on the first `" - "`
and null out an empty or placeholder leading segment; every other id (and a
missing app) uses the default branch. -/
def MonitoredApp.title (w : DesktopWindow) (app : Option AppData) : Option String :=
  match app with
  | some a =>
      match a.id with
      | "arcbrowser" | "brave" | "canva" | "chrome" | "firefox" | "notes"
      | "safari" | "safaripreview" | "xcode" | "microsoft_edge" =>
          some (a.id ++ " should never use window title as entity")
      | "figma" =>
          let t := splitHead w.title
          if t = "" ∨ t = "Figma" ∨ t = "Drafts" then none else some t
      | "warp" =>
          let t := splitHead w.title
          if t = "" ∨ t = "Wrap" then none else some t
      | "postman" =>
          let t := splitHead w.title
          if t = "" ∨ t = "Postman" then none else some t
      | _ => titleDefault w
  | none => titleDefault w

/-- Scheme, host and port of a parsed URL, mirroring the fields of the
WHATWG `URL` object read by `domainFromUrl`.  Following the WHATWG standard,
`host` is the hostname *including* the `":port"` suffix when the URL carries
a non-default port (the port-free field would be `hostname`, which the
source does not read); `port` is `""` when the URL carries no port or the
default port for its scheme, exactly as `URL.port` serialises. -/
structure UrlParts where
  scheme : String
  host : String
  port : String
  deriving DecidableEq, Repr

/-- Splits a list at the first occurrence of the substring `sep`, returning
the part before and the part after; `none` when `sep` does not occur. -/
def breakOnSub (sep : List Char) : List Char → Option (List Char × List Char)
  | [] => if sep.isEmpty then some ([], []) else none
  | c :: rest =>
      if sep.isPrefixOf (c :: rest) then some ([], (c :: rest).drop sep.length)
      else match breakOnSub sep rest with
        | some (pre, post) => some (c :: pre, post)
        | none => none

/-- Digits of a port string folded into a number; `none` when a non-digit
appears. -/
def parsePortDigits : List Char → Option Nat
  | [] => some 0
  | c :: rest =>
      if c.isDigit then
        (parsePortDigits rest).map fun n => (c.toNat - '0'.toNat) * 10 ^ rest.length + n
      else none

/-- Default port of the two special schemes this embedding supports. -/
def defaultPort : String → Nat
  | "http" => 80
  | "https" => 443
  | _ => 0

/-- WHATWG `new URL(url)` restricted to absolute http/https URLs (the shapes
reaching `domainFromUrl` from a browser snapshot): the scheme before `"://"`,
then the authority up to the first `/`, `?` or `#`, split into a lowercased
hostname and an optional decimal port.  A missing or default port serialises
as `port = ""` and `host` is just the hostname; a non-default port
serialises into `port` and — as the WHATWG standard prescribes for `host` —
is also kept in `host` as a `":port"` suffix after the hostname.
Unsupported or malformed inputs give `none`, where the platform constructor
would throw. -/
def parseUrl (url : String) : Option UrlParts :=
  match breakOnSub ("://".data) url.data with
  | none => none
  | some (schemeChars, rest) =>
      let scheme := String.mk (schemeChars.map Char.toLower)
      if scheme = "http" ∨ scheme = "https" then
        let authority := rest.takeWhile fun c => c ≠ '/' ∧ c ≠ '?' ∧ c ≠ '#'
        let hostnameChars := authority.takeWhile (· ≠ ':')
        let portChars := (authority.dropWhile (· ≠ ':')).drop 1
        if hostnameChars.isEmpty then none
        else
          let hostname := String.mk (hostnameChars.map Char.toLower)
          if portChars.isEmpty then some { scheme, host := hostname, port := "" }
          else
            match parsePortDigits portChars with
            | none => none
            | some n =>
                if n = defaultPort scheme then
                  some { scheme, host := hostname, port := "" }
                else
                  some { scheme, host := hostname ++ ":" ++ toString n,
                         port := toString n }
      else none

/-- Replacement semantics of `host.replace(/^www./, "")`: the regex's dot is
unescaped, so the first four characters are removed whenever the host starts
with `www` followed by any single character; otherwise the host is
unchanged. -/
def stripLeadingWwwDot (host : List Char) : List Char :=
  match host with
  | 'w' :: 'w' :: 'w' :: _ :: rest => rest
  | l => l

/-- MonitoredApp.domainFromUrl (monitored-app.ts lines 201-208): destructure
`host` and `port` from `new URL(url)`, strip the `/^www./` prefix from the
host, and append `":port"` when the parsed port is non-empty.  Because the
WHATWG `host` already ends in `":port"` for a non-default port, this appends
the port a second time (e.g. `example.com:8080:8080`).  `none` models the
exception `new URL` throws on an unparseable input. -/
def MonitoredApp.domainFromUrl (url : String) : Option String :=
  (parseUrl url).map fun u =>
    let domain := String.mk (stripLeadingWwwDot u.host.data)
    if u.port ≠ "" then domain ++ ":" ++ u.port else domain

/-- MonitoredApp.entity (monitored-app.ts lines 136-157).  The external
collaborators `FilterManager.filterBrowsedSites` and
`PropertiesManager.domainPreference` are passed as parameters.  A browser app
resolves through the URL (or to null, never through the title); canva and
notes resolve to null; everything else delegates to `title`.  The JavaScript
truthiness test `windowInfo.url && ...` makes an empty-string URL fall to the
null branch. -/
def MonitoredApp.entity (filterBrowsedSites : String → Bool)
    (domainPreference : String) (w : DesktopWindow) (app : Option AppData) :
    Option String :=
  if (app.map AppData.isBrowser).getD false then
    match w.url with
    | some url =>
        if url ≠ "" ∧ filterBrowsedSites url then
          if domainPreference = "domain" then MonitoredApp.domainFromUrl url
          else some url
        else none
    | none => none
  else
    match app.map AppData.id with
    | some "canva" => none
    | some "notes" => none
    | _ => MonitoredApp.title w app

/-- Abstract syntax of the JavaScript regular expressions used by
`MonitoredApp.project`: literals (escaped characters included), the class
`[^/]`, the dot, concatenation, alternation, greedy `*` and `?`, numbered
capturing groups, and the `$` anchor.  `+` is encoded as `a` followed by
`a*`. -/
inductive Re where
  | eps
  | lit (c : Char)
  | notSlash
  | anyChar
  | seq (a b : Re)
  | alt (a b : Re)
  | star (a : Re)
  | opt (a : Re)
  | group (i : Nat) (a : Re)
  | eos
  deriving Repr

/-- Node count of a regex, used to bound the backtracking fuel. -/
def Re.size : Re → Nat
  | .eps | .lit _ | .notSlash | .anyChar | .eos => 1
  | .seq a b | .alt a b => a.size + b.size + 1
  | .star a | .opt a | .group _ a => a.size + 1

/-- Backtracking matcher.  `matchL fuel re s gs` returns, in the preference
order of a JavaScript engine (leftmost alternative first, greedy quantifiers
longest first), the list of `(unconsumed suffix, captures)` outcomes of
matching `re` against a prefix of `s`.  `gs` accumulates numbered captures.
A `star` iteration must consume input, mirroring the engine's empty-match
loop cutoff; the fuel only bounds recursion depth and is chosen large enough
at the call site that it is never exhausted. -/
def matchL : Nat → Re → List Char → List (Nat × List Char) →
    List (List Char × List (Nat × List Char))
  | 0, _, _, _ => []
  | _ + 1, .eps, s, gs => [(s, gs)]
  | _ + 1, .lit c, s, gs =>
      match s with
      | [] => []
      | a :: rest => if a = c then [(rest, gs)] else []
  | _ + 1, .notSlash, s, gs =>
      match s with
      | [] => []
      | a :: rest => if a ≠ '/' then [(rest, gs)] else []
  | _ + 1, .anyChar, s, gs =>
      match s with
      | [] => []
      | a :: rest => if a ≠ '\n' ∧ a ≠ '\r' then [(rest, gs)] else []
  | fuel + 1, .seq a b, s, gs =>
      (matchL fuel a s gs).flatMap fun r => matchL fuel b r.1 r.2
  | fuel + 1, .alt a b, s, gs => matchL fuel a s gs ++ matchL fuel b s gs
  | fuel + 1, .star a, s, gs =>
      ((matchL fuel a s gs).flatMap fun r =>
        if r.1.length < s.length then matchL fuel (.star a) r.1 r.2 else []) ++
        [(s, gs)]
  | fuel + 1, .opt a, s, gs => matchL fuel a s gs ++ [(s, gs)]
  | fuel + 1, .group i a, s, gs =>
      (matchL fuel a s gs).map fun r =>
        (r.1, (i, s.take (s.length - r.1.length)) :: r.2)
  | _ + 1, .eos, s, gs => if s.isEmpty then [(s, gs)] else []

/-- Concatenation of the literal characters of `s`. -/
def Re.str (s : String) : Re :=
  s.data.foldr (fun c r => .seq (.lit c) r) .eps

/-- Concatenation of a list of regexes. -/
def reCat (l : List Re) : Re := l.foldr .seq .eps

/-- Greedy `+` as one copy followed by a greedy star. -/
def rePlus (a : Re) : Re := .seq a (.star a)

/-- Fuel sufficient for every backtracking path of `re` over `s`: each
recursion step either descends into a strict subterm or re-enters a star
after consuming at least one character. -/
def matchFuel (re : Re) (s : List Char) : Nat := (re.size + 1) * (s.length + 2)

/-- Search loop of JavaScript `String.prototype.match` for a regex without
`^`: try each start position from the left and return the captures of the
first (preferred) match at the first position that matches. -/
def execFrom (re : Re) (fuel : Nat) : List Char → Option (List (Nat × List Char))
  | [] =>
      match matchL fuel re [] [] with
      | r :: _ => some r.2
      | [] => none
  | c :: rest =>
      match matchL fuel re (c :: rest) [] with
      | r :: _ => some r.2
      | [] => execFrom re fuel rest

/-- Captures of the leftmost preferred match of `re` in `s`, or `none` when
`re` matches nowhere in `s`. -/
def Re.exec (re : Re) (s : List Char) : Option (List (Nat × List Char)) :=
  execFrom re (matchFuel re s) s

/-- One entry of the `patterns` array in `MonitoredApp.project`: a regex and
the index of its repository capturing group. -/
structure UrlPattern where
  expression : Re
  group : Nat

/-- Regex `/github\.com\/[^/]+\/([^/]+)\/?.*$/`. -/
def githubRe : Re :=
  reCat [.str "github.com/", rePlus .notSlash, .lit '/',
    .group 1 (rePlus .notSlash), .opt (.lit '/'), .star .anyChar, .eos]

/-- Regex `/gitlab\.com\/[^/]+\/([^/]+)\/?.*$/`. -/
def gitlabRe : Re :=
  reCat [.str "gitlab.com/", rePlus .notSlash, .lit '/',
    .group 1 (rePlus .notSlash), .opt (.lit '/'), .star .anyChar, .eos]

/-- Regex `/bitbucket\.org\/[^/]+\/([^/]+)\/?.*$/`. -/
def bitbucketRe : Re :=
  reCat [.str "bitbucket.org/", rePlus .notSlash, .lit '/',
    .group 1 (rePlus .notSlash), .opt (.lit '/'), .star .anyChar, .eos]

/-- Alternation `(github|bitbucket|gitlab)` (capturing group 1 of the CI
patterns). -/
def providerAlt : Re :=
  .alt (.str "github") (.alt (.str "bitbucket") (.str "gitlab"))

/-- Regex `/app\.circleci\.com\/.*\/?(github|bitbucket|gitlab)\/[^/]+\/([^/]+)\/?.*$/`. -/
def circleciRe : Re :=
  reCat [.str "app.circleci.com/", .star .anyChar, .opt (.lit '/'),
    .group 1 providerAlt, .lit '/', rePlus .notSlash, .lit '/',
    .group 2 (rePlus .notSlash), .opt (.lit '/'), .star .anyChar, .eos]

/-- Regex `/app\.travis-ci\.com\/(github|bitbucket|gitlab)\/[^/]+\/([^/]+)\/?.*$/`. -/
def travisComRe : Re :=
  reCat [.str "app.travis-ci.com/", .group 1 providerAlt, .lit '/',
    rePlus .notSlash, .lit '/', .group 2 (rePlus .notSlash), .opt (.lit '/'),
    .star .anyChar, .eos]

/-- Regex `/app\.travis-ci\.org\/(github|bitbucket|gitlab)\/[^/]+\/([^/]+)\/?.*$/`. -/
def travisOrgRe : Re :=
  reCat [.str "app.travis-ci.org/", .group 1 providerAlt, .lit '/',
    rePlus .notSlash, .lit '/', .group 2 (rePlus .notSlash), .opt (.lit '/'),
    .star .anyChar, .eos]

/-- The ordered `patterns` array of `MonitoredApp.project`
(monitored-app.ts lines 104-123). -/
def urlPatterns : List UrlPattern :=
  [⟨githubRe, 1⟩, ⟨gitlabRe, 1⟩, ⟨bitbucketRe, 1⟩,
   ⟨circleciRe, 2⟩, ⟨travisComRe, 2⟩, ⟨travisOrgRe, 2⟩]

/-- Loop body of `MonitoredApp.project`: the first pattern whose regex
matches ends the loop and returns that pattern's capture (the source returns
`match[pattern.group]` immediately, so a later pattern is never consulted
once one has matched). -/
def projectLoop : List UrlPattern → List Char → Option String
  | [], _ => none
  | p :: rest, url =>
      match p.expression.exec url with
      | some caps => (caps.lookup p.group).map String.mk
      | none => projectLoop rest url

/-- MonitoredApp.project (monitored-app.ts lines 100-134): null for a missing
(or falsy empty) URL, otherwise the first-match loop over the fixed pattern
list. -/
def MonitoredApp.project (w : DesktopWindow) : Option String :=
  match w.url with
  | none => none
  | some url => if url = "" then none else projectLoop urlPatterns url.data

/-- Observable steps of one `Wakatime.sendHeartbeat` call, in source order:
reading the throttle state for the emit decision, evaluating the
path/monitored/app-name gate, and dispatching the CLI. -/
inductive HbStep where
  | consultThrottle
  | checkGate
  | dispatch
  deriving DecidableEq, Repr

/-- Result of one `sendHeartbeat` call: the throttle state afterwards, the
ordered trace of steps the call performed, and whether a heartbeat was
dispatched. -/
structure HbResult where
  state : ThrottleState
  trace : List HbStep
  sent : Bool
  deriving DecidableEq, Repr

/-- Arguments of `Wakatime.sendHeartbeat` (the `props` object).  `entityType`,
`project` and `language` only shape the CLI argument list and are carried for
completeness. -/
structure HeartbeatProps where
  appData : Option AppData
  windowInfo : DesktopWindow
  entity : String
  entityType : String := "app"
  category : Option Category
  project : Option String := none
  language : Option String := none
  isWrite : Bool
  deriving DecidableEq, Repr

/-- Resolution `windowInfo.info.name || appData?.name` (an empty display name
is falsy and falls through to the catalog name). -/
def resolvedAppName (props : HeartbeatProps) : Option String :=
  if props.windowInfo.info.name ≠ "" then some props.windowInfo.info.name
  else props.appData.map AppData.name

/-- Sequence of early returns between the throttle decision and the state
update in `sendHeartbeat` (wakatime.ts lines 154-162), folded into one
predicate in their source order: the window path must be truthy and
monitored, and the resolved app name must be truthy. -/
def preDispatchGatePasses (isMonitored : String → Bool)
    (props : HeartbeatProps) : Bool :=
  match props.windowInfo.info.path with
  | none => false
  | some p =>
      if p = "" ∨ ¬ isMonitored p then false
      else
        match resolvedAppName props with
        | none => false
        | some n => n ≠ ""

/-- Wakatime.sendHeartbeat (wakatime.ts lines 129-263) up to the dispatch
decision.  The call first evaluates `shouldSendHeartbeat` against the stored
throttle state and returns when it suppresses; only then does it evaluate the
pre-dispatch gate; only when the gate passes are `lastEntitiy`,
`lastCategory` and `lastTime` overwritten (before the CLI invocation is
awaited).  `MonitoringManager.isMonitored` is an external collaborator passed
as a parameter, and `category` defaults to `"coding"` when null. -/
def Wakatime.sendHeartbeat (isMonitored : String → Bool)
    (props : HeartbeatProps) (time : ℚ) (s : ThrottleState) : HbResult :=
  let category := props.category.getD Category.coding
  if ¬ shouldSendHeartbeat props.entity time props.isWrite category s then
    { state := s, trace := [.consultThrottle], sent := false }
  else if preDispatchGatePasses isMonitored props then
    { state :=
        { lastEntitiy := props.entity, lastCategory := category,
          lastTime := time },
      trace := [.consultThrottle, .checkGate, .dispatch], sent := true }
  else
    { state := s, trace := [.consultThrottle, .checkGate], sent := false }

/-- StatusCache: the dispatcher's fields `lastCodeTimeFetched` and
`lastCodeTimeText`, together with the tray title currently displayed. -/
structure StatusCache where
  lastCodeTimeFetched : ℚ
  lastCodeTimeText : String
  trayTitle : String
  deriving DecidableEq, Repr

/-- Outcome of one `exec(cli, ...)` invocation: stdout on success, an error
value, or an exception from the spawn machinery. -/
inductive CliOutcome where
  | ok (output : String)
  | err (msg : String)
  | exn (msg : String)
  deriving DecidableEq, Repr

/-- Wakatime.fetchToday (wakatime.ts lines 265-311).  With the status bar
disabled the displayed title is cleared and nothing runs.  A cache younger
than 120 seconds re-displays the cached text.  Otherwise
`lastCodeTimeFetched` is set to the current time before the CLI is spawned
(so failures also arm the cooldown); the cached text and display change only
on success.  Returns the new cache and whether the CLI was spawned. -/
def Wakatime.fetchToday (showCodeTime : Bool) (time : ℚ) (cli : CliOutcome)
    (s : StatusCache) : StatusCache × Bool :=
  if ¬ showCodeTime then ({ s with trayTitle := "" }, false)
  else if s.lastCodeTimeFetched + 120 > time then
    ({ s with trayTitle := " " ++ s.lastCodeTimeText }, false)
  else
    let s1 := { s with lastCodeTimeFetched := time }
    match cli with
    | .ok output =>
        ({ s1 with lastCodeTimeText := output, trayTitle := " " ++ output }, true)
    | .err _ => (s1, true)
    | .exn _ => (s1, true)

/-- One scheduled `fetchToday` call: the status-bar flag and clock at call
time, and the outcome the CLI would produce if spawned. -/
structure FetchCall where
  showCodeTime : Bool
  time : ℚ
  cli : CliOutcome
  deriving DecidableEq, Repr

/-- State transformation of one `fetchToday` call. -/
def fetchStep (s : StatusCache) (c : FetchCall) : StatusCache :=
  (Wakatime.fetchToday c.showCodeTime c.time c.cli s).1

/-- StatusCache after a sequence of `fetchToday` calls. -/
def fetchRun (calls : List FetchCall) (s : StatusCache) : StatusCache :=
  calls.foldl fetchStep s

/-- Whether the `k`-th call of the sequence spawns the summary CLI. -/
def fetchSpawned (calls : List FetchCall) (s : StatusCache) (k : Nat) : Bool :=
  match calls[k]? with
  | none => false
  | some c =>
      (Wakatime.fetchToday c.showCodeTime c.time c.cli
        (fetchRun (calls.take k) s)).2

/-- UpdateState: the three update-coordination fields of class `Wakatime`.
Timestamps are `Date.now()` milliseconds. -/
structure UpdateState where
  lastCheckedForUpdates : Int
  lastPromptedToUpdateAt : Int
  lastPromptedToUpdateVersion : String
  deriving DecidableEq, Repr

/-- Initial update-coordination fields (all zero / empty). -/
def UpdateState.init : UpdateState :=
  { lastCheckedForUpdates := 0, lastPromptedToUpdateAt := 0,
    lastPromptedToUpdateVersion := "" }

/-- Wakatime.canPromptToUpdate (wakatime.ts lines 368-372): true when the
last recorded prompt is older than 7 days (604800 seconds) or concerned a
different version. -/
def Wakatime.canPromptToUpdate (s : UpdateState) (newVersion : String)
    (now : Int) : Bool :=
  if s.lastPromptedToUpdateAt + 604800 * 1000 < now then true
  else if s.lastPromptedToUpdateVersion ≠ newVersion then true
  else false

/-- Handler of the `"update-available"` feed event (wakatime.ts lines
326-337): when `canPromptToUpdate` allows it, `downloadUpdate` is started;
the handler itself records nothing in the state.  Returns the state and
whether a download was triggered. -/
def Wakatime.onUpdateAvailable (s : UpdateState) (version : String)
    (now : Int) : UpdateState × Bool :=
  if Wakatime.canPromptToUpdate s version now then (s, true)
  else (s, false)

/-- Handler of the `"update-downloaded"` feed event (wakatime.ts lines
338-352): when `canPromptToUpdate` allows it, the version and timestamp are
recorded as prompted and `quitAndInstall` runs.  Returns the state and
whether install was triggered. -/
def Wakatime.onUpdateDownloaded (s : UpdateState) (version : String)
    (now : Int) : UpdateState × Bool :=
  if Wakatime.canPromptToUpdate s version now then
    let s1 := { s with lastPromptedToUpdateVersion := version, lastPromptedToUpdateAt := now }
    (s1, true)
  else (s, false)

/-- Wakatime.checkForUpdates (wakatime.ts lines 374-379): a no-op when
auto-update is disabled or the build is a development build, or when
`lastCheckedForUpdates + 600 * 1000 > Date.now()`.  Otherwise it awaits
`checkForUpdatesAndNotify`.  The source never assigns
`lastCheckedForUpdates` anywhere (it stays at its initial 0), and this
embedding reproduces that: the state is returned unchanged even when a check
runs.  Returns the state and whether the feed client was asked to check. -/
def Wakatime.checkForUpdates (autoUpdateEnabled isDev : Bool)
    (s : UpdateState) (now : Int) : UpdateState × Bool :=
  if ¬ autoUpdateEnabled ∨ isDev then (s, false)
  else if s.lastCheckedForUpdates + 600 * 1000 > now then (s, false)
  else (s, true)

/-- Node `path.parse(p).name` semantics on the base segment: drop the
extension that starts at the last dot, unless that dot is the first
character of the base. -/
def stripExtension (base : List Char) : List Char :=
  let afterRev := base.reverse.takeWhile (· ≠ '.')
  if afterRev.length = base.length then base
  else
    let nameLen := base.length - afterRev.length - 1
    if nameLen = 0 then base else base.take nameLen

/-- Node `path.parse(p).name`: the part of the last path segment before its
extension. -/
def pathParseName (p : String) : String :=
  String.mk (stripExtension ((p.data.reverse.takeWhile (· ≠ '/')).reverse))

/-- Result of the `appName` initialiser in
`LinuxWindowManager.buildWindowFromId`: either a string, or the `TypeError`
that `path.parse(null)` raises (caught by the surrounding try). -/
inductive AppNameResult where
  | ok (s : String)
  | typeError
  deriving DecidableEq, Repr

/-- JavaScript truthiness of a string-or-nullish value: null/undefined and
the empty string are falsy. -/
def jsTruthy : Option String → Bool
  | none => false
  | some s => s ≠ ""

/-- The `appName` initialiser of `LinuxWindowManager.buildWindowFromId`
(monitored-app.ts source lines around 425-428), with JavaScript operator
precedence: `??` binds tighter than the conditional, so the expression is
`(wmClassRaw?.[last] ?? gtkAppId ?? processPath) ? path.parse(processPath).name : title`.
When the condition is truthy but `processPath` is null, `path.parse(null)`
throws a TypeError. -/
def buildAppName (wmClassRaw : Option (List String)) (gtkAppId : Option String)
    (processPath : Option String) (title : String) : AppNameResult :=
  let condValue : Option String :=
    (wmClassRaw.bind List.getLast?).orElse fun _ =>
      gtkAppId.orElse fun _ => processPath
  if jsTruthy condValue then
    match processPath with
    | some p => .ok (pathParseName p)
    | none => .typeError
  else .ok title

/-- Modelled from the spec: the documented app-name precedence
class → gtk id → process-name-else-title, written as the specification (§9,
design note on the ternary chain) describes it.  Kept separate from
`buildAppName`, which embeds the source's actual expression, so the two can
be compared. -/
def buildAppNameDocumented (wmClassRaw : Option (List String))
    (gtkAppId : Option String) (processPath : Option String)
    (title : String) : String :=
  match wmClassRaw.bind List.getLast? with
  | some c => c
  | none =>
      match gtkAppId with
      | some g => g
      | none =>
          match processPath with
          | some p => pathParseName p
          | none => title

/-! ## Theorems settling the claims -/

/-- Characterisation of the throttle decision as a four-way disjunction
(helper shared by the claims about `shouldSendHeartbeat`). -/
theorem shouldSendHeartbeat_true_iff (entity : String) (time : ℚ) (isWrite : Bool)
    (category : Category) (s : ThrottleState) :
    shouldSendHeartbeat entity time isWrite category s = true ↔
      (isWrite = true ∨ category ≠ s.lastCategory ∨
        (entity ≠ "" ∧ entity ≠ s.lastEntitiy) ∨ s.lastTime + 120 < time) := by
  unfold shouldSendHeartbeat
  split_ifs with h1 h2 h3 h4 <;> simp_all [ne_comm]
  tauto

/-- C1: the throttle decision `shouldSendHeartbeat(entity, time, isWrite,
category)` against the stored ThrottleState returns true iff `isWrite` is
true, or the category differs from the stored last category, or the entity
is non-empty and differs from the stored last entity, or the time strictly
exceeds the stored last emission timestamp plus 120 seconds; in particular
it returns false for every non-write sample with unchanged category and
entity arriving less than 120 seconds after the last emission, and true for
every write sample. -/
theorem C1_shouldSendHeartbeat_spec :
    (∀ (entity : String) (time : ℚ) (isWrite : Bool) (category : Category)
        (s : ThrottleState),
      shouldSendHeartbeat entity time isWrite category s = true ↔
        (isWrite = true ∨ category ≠ s.lastCategory ∨
          (entity ≠ "" ∧ entity ≠ s.lastEntitiy) ∨ s.lastTime + 120 < time)) ∧
    (∀ (entity : String) (time : ℚ) (category : Category) (s : ThrottleState),
      category = s.lastCategory → entity = s.lastEntitiy →
      time - s.lastTime < 120 →
      shouldSendHeartbeat entity time false category s = false) ∧
    (∀ (entity : String) (time : ℚ) (category : Category) (s : ThrottleState),
      shouldSendHeartbeat entity time true category s = true) := by
  refine ⟨shouldSendHeartbeat_true_iff, ?_, ?_⟩
  · intro entity time category s hcat hent htime
    rw [Bool.eq_false_iff]
    intro hb
    rcases (shouldSendHeartbeat_true_iff entity time false category s).mp hb with
      h1 | h1 | h1 | h1
    · exact Bool.false_ne_true h1
    · exact h1 hcat
    · exact h1.2 hent
    · linarith
  · intro entity time category s
    exact (shouldSendHeartbeat_true_iff entity time true category s).mpr (Or.inl rfl)

/-- C1 witness: a concrete suppressed sample (unchanged entity and category,
50 seconds after the last emission, not a write) is rejected by the
throttle. -/
theorem C1_witness :
    shouldSendHeartbeat "a" 100 false Category.coding
      { lastEntitiy := "a", lastTime := 50, lastCategory := Category.coding } = false :=
  C1_shouldSendHeartbeat_spec.2.1 "a" 100 Category.coding
    { lastEntitiy := "a", lastTime := 50, lastCategory := Category.coding }
    rfl rfl (by norm_num)

/-- C2: contrary to the claim, a non-browser app whose catalog id is in the
title-blocked branch does not resolve to a null entity.  For the IDE id
`xcode` (not a browser, not in the canva/notes early-null cases of `entity`)
the source returns the literal sentinel string
`"xcode should never use window title as entity"` as the entity for every
window title, every site filter and every domain preference.  The sentinel's
own text documents that the title-blocked ids must not produce an entity, so
the claim (and the specification's "null/blocked") describes the intent and
the code contradicts it. -/
theorem C2_blocked_title_entity_not_null :
    ∀ (w : DesktopWindow) (f : String → Bool) (pref : String),
      MonitoredApp.entity f pref w
          (some { id := "xcode", isBrowser := false, name := "Xcode" }) =
        some "xcode should never use window title as entity" := by
  intro w f pref
  rfl

/-- C3 counterexample: the claim fails at two concrete inputs.  For URL
`https://wwwtest.com/x` the host is `wwwtest.com`, which does not begin with
`"www."`, so the claim predicts the domain entity `wwwtest.com`; the
unescaped dot in the source's `/^www./` regex instead strips the first four
characters and the code returns `est.com`.  For URL
`https://www.example.com:8080/x` the claim predicts `":port"` appended
exactly once, i.e. `example.com:8080`; but the WHATWG `host` the source
destructures already carries the `":8080"` suffix, and the source appends
`":" + port` to it again, returning `example.com:8080:8080`. -/
theorem C3_counterexample :
    (MonitoredApp.entity (fun _ => true) "domain"
        { title := "t", url := some "https://wwwtest.com/x",
          info := { path := none, name := "B", execName := none } }
        (some { id := "chrome", isBrowser := true, name := "Chrome" }) =
      some "est.com" ∧ ("est.com" : String) ≠ "wwwtest.com") ∧
    (MonitoredApp.entity (fun _ => true) "domain"
        { title := "t", url := some "https://www.example.com:8080/x",
          info := { path := none, name := "B", execName := none } }
        (some { id := "chrome", isBrowser := true, name := "Chrome" }) =
      some "example.com:8080:8080" ∧
      ("example.com:8080:8080" : String) ≠ "example.com:8080") := by
  exact ⟨⟨by decide, by decide⟩, ⟨by decide, by decide⟩⟩

/-- C3 amended: for every browser snapshot whose URL is present, non-empty
and accepted by the site filter, with domain preference "domain",
`MonitoredApp.entity` returns the parsed WHATWG host (which already ends in
`":port"` when the URL carries a non-default port) transformed by the
source's `/^www./` replacement — the first four characters are dropped
whenever the host starts with `www` followed by any single character (not
only before a literal `"www."` prefix) — with `":" + port` appended once
more when the port is non-default, so such URLs get the port doubled (e.g.
`example.com:8080:8080`); when the URL is absent or rejected by the filter,
entity returns null with no fallback to the window title; for the portless
URL `https://github.com/acme/widgets/pull/9` the entity resolves to
`github.com`. -/
theorem C3_amended_domain_entity :
    (∀ (w : DesktopWindow) (a : AppData) (url : String) (parts : UrlParts)
        (f : String → Bool),
      a.isBrowser = true → w.url = some url → url ≠ "" → f url = true →
      parseUrl url = some parts →
      MonitoredApp.entity f "domain" w (some a) =
        some (if parts.port ≠ "" then
            String.mk (stripLeadingWwwDot parts.host.data) ++ ":" ++ parts.port
          else String.mk (stripLeadingWwwDot parts.host.data))) ∧
    (∀ (w : DesktopWindow) (a : AppData) (f : String → Bool) (pref : String),
      a.isBrowser = true → w.url = none →
      MonitoredApp.entity f pref w (some a) = none) ∧
    (∀ (w : DesktopWindow) (a : AppData) (url : String) (f : String → Bool)
        (pref : String),
      a.isBrowser = true → w.url = some url → f url = false →
      MonitoredApp.entity f pref w (some a) = none) ∧
    MonitoredApp.entity (fun _ => true) "domain"
        { title := "t", url := some "https://github.com/acme/widgets/pull/9",
          info := { path := none, name := "B", execName := none } }
        (some { id := "chrome", isBrowser := true, name := "Chrome" }) =
      some "github.com" := by
  refine ⟨?_, ?_, ?_, by decide⟩
  · intro w a url parts f hb hu hne hf hp
    unfold MonitoredApp.entity
    rw [hu]
    simp [hb, hne, hf, MonitoredApp.domainFromUrl, hp]
  · intro w a f pref hb hu
    unfold MonitoredApp.entity
    rw [hu]
    simp [hb]
  · intro w a url f pref hb hu hf
    unfold MonitoredApp.entity
    rw [hu]
    simp [hb, hf]

/-- C3 witness: a URL with hostname `www.example.com` and explicit
non-default port 8080 (WHATWG host `www.example.com:8080`) resolves, under
the domain preference, to `example.com:8080:8080` — the port doubled. -/
theorem C3_witness :
    MonitoredApp.entity (fun _ => true) "domain"
        { title := "t", url := some "https://www.example.com:8080/x",
          info := { path := none, name := "B", execName := none } }
        (some { id := "chrome", isBrowser := true, name := "Chrome" }) =
      some "example.com:8080:8080" := by
  have h := C3_amended_domain_entity.1
    { title := "t", url := some "https://www.example.com:8080/x",
      info := { path := none, name := "B", execName := none } }
    { id := "chrome", isBrowser := true, name := "Chrome" }
    "https://www.example.com:8080/x"
    { scheme := "https", host := "www.example.com:8080", port := "8080" }
    (fun _ => true) rfl rfl (by decide) rfl (by decide)
  simpa using h

/-- C4: contrary to the claim, two `checkForUpdates()` calls one second
apart (auto-update enabled, non-development build, clock at a realistic
epoch value) both reach the feed client.  The source declares
`lastCheckedForUpdates` and reads it in the cooldown comparison, but never
assigns it, so the 600-second cooldown never engages after the first check;
the claim (and the specification's "no-op if fewer than 600 seconds have
elapsed since the last check") describes the evident intent of the field,
and the missing assignment is the slip. -/
theorem C4_double_check_not_deduplicated :
    (Wakatime.checkForUpdates true false UpdateState.init 1700000000000).2 = true ∧
    (Wakatime.checkForUpdates true false
        (Wakatime.checkForUpdates true false UpdateState.init 1700000000000).1
        1700000001000).2 = true ∧
    (Wakatime.checkForUpdates true false UpdateState.init
        1700000000000).1.lastCheckedForUpdates = 0 := by
  exact ⟨by decide, by decide, by decide⟩

/-- C5 counterexample: with app id `figma` and window title
`"Untitled - Figma"`, the leading segment is `"Untitled"`, which is neither
empty nor one of the placeholder strings the source checks (`"Figma"`,
`"Drafts"`), so the entity resolves to `"Untitled"`, not null as the claim
states. -/
theorem C5_counterexample :
    MonitoredApp.entity (fun _ => true) "domain"
        { title := "Untitled - Figma", url := none,
          info := { path := none, name := "Figma", execName := none } }
        (some { id := "figma", isBrowser := false, name := "Figma" }) =
      some "Untitled" ∧
    (some "Untitled" : Option String) ≠ none := by
  exact ⟨by decide, by decide⟩

/-- Reduction of `entity` for the figma app literal to the figma branch of
`title` (helper). -/
theorem entity_figma_eq (f : String → Bool) (pref : String) (w : DesktopWindow) :
    MonitoredApp.entity f pref w
        (some { id := "figma", isBrowser := false, name := "Figma" }) =
      (let t := splitHead w.title
       if t = "" ∨ t = "Figma" ∨ t = "Drafts" then none else some t) := rfl

/-- Reduction of `entity` for the warp app literal to the warp branch of
`title` (helper). -/
theorem entity_warp_eq (f : String → Bool) (pref : String) (w : DesktopWindow) :
    MonitoredApp.entity f pref w
        (some { id := "warp", isBrowser := false, name := "Warp" }) =
      (let t := splitHead w.title
       if t = "" ∨ t = "Wrap" then none else some t) := rfl

/-- Reduction of `entity` for the postman app literal to the postman branch
of `title` (helper). -/
theorem entity_postman_eq (f : String → Bool) (pref : String) (w : DesktopWindow) :
    MonitoredApp.entity f pref w
        (some { id := "postman", isBrowser := false, name := "Postman" }) =
      (let t := splitHead w.title
       if t = "" ∨ t = "Postman" then none else some t) := rfl

/-- C5 amended: for the placeholder-title apps the source splits the window
title on the first `" - "` occurrence and returns the leading segment unless
it is empty or equals one of that app's fixed placeholder strings — `"Figma"`
or `"Drafts"` for figma, `"Wrap"` for warp, `"Postman"` for postman — in
which case it returns null.  The placeholder comparison is a case-sensitive
exact match and `"Untitled"` is not a placeholder, so for app id figma the
title `"Untitled - Figma"` resolves to `"Untitled"` (not null), and
`"Homepage Design - Figma"` resolves to `"Homepage Design"`. -/
theorem C5_amended_placeholder_titles :
    (∀ (w : DesktopWindow) (f : String → Bool) (pref : String),
      splitHead w.title ≠ "" → splitHead w.title ≠ "Figma" →
      splitHead w.title ≠ "Drafts" →
      MonitoredApp.entity f pref w
          (some { id := "figma", isBrowser := false, name := "Figma" }) =
        some (splitHead w.title)) ∧
    (∀ (w : DesktopWindow) (f : String → Bool) (pref : String),
      (splitHead w.title = "" ∨ splitHead w.title = "Figma" ∨
        splitHead w.title = "Drafts") →
      MonitoredApp.entity f pref w
          (some { id := "figma", isBrowser := false, name := "Figma" }) = none) ∧
    (∀ (w : DesktopWindow) (f : String → Bool) (pref : String),
      splitHead w.title ≠ "" → splitHead w.title ≠ "Wrap" →
      MonitoredApp.entity f pref w
          (some { id := "warp", isBrowser := false, name := "Warp" }) =
        some (splitHead w.title)) ∧
    (∀ (w : DesktopWindow) (f : String → Bool) (pref : String),
      (splitHead w.title = "" ∨ splitHead w.title = "Wrap") →
      MonitoredApp.entity f pref w
          (some { id := "warp", isBrowser := false, name := "Warp" }) = none) ∧
    (∀ (w : DesktopWindow) (f : String → Bool) (pref : String),
      splitHead w.title ≠ "" → splitHead w.title ≠ "Postman" →
      MonitoredApp.entity f pref w
          (some { id := "postman", isBrowser := false, name := "Postman" }) =
        some (splitHead w.title)) ∧
    (∀ (w : DesktopWindow) (f : String → Bool) (pref : String),
      (splitHead w.title = "" ∨ splitHead w.title = "Postman") →
      MonitoredApp.entity f pref w
          (some { id := "postman", isBrowser := false, name := "Postman" }) = none) ∧
    MonitoredApp.entity (fun _ => true) "domain"
        { title := "Untitled - Figma", url := none,
          info := { path := none, name := "Figma", execName := none } }
        (some { id := "figma", isBrowser := false, name := "Figma" }) =
      some "Untitled" ∧
    MonitoredApp.entity (fun _ => true) "domain"
        { title := "Homepage Design - Figma", url := none,
          info := { path := none, name := "Figma", execName := none } }
        (some { id := "figma", isBrowser := false, name := "Figma" }) =
      some "Homepage Design" := by
  refine ⟨?_, ?_, ?_, ?_, ?_, ?_, by decide, by decide⟩
  · intro w f pref h1 h2 h3
    rw [entity_figma_eq]
    simp [h1, h2, h3]
  · intro w f pref h
    rw [entity_figma_eq]
    rcases h with h | h | h <;> simp [h]
  · intro w f pref h1 h2
    rw [entity_warp_eq]
    simp [h1, h2]
  · intro w f pref h
    rw [entity_warp_eq]
    rcases h with h | h <;> simp [h]
  · intro w f pref h1 h2
    rw [entity_postman_eq]
    simp [h1, h2]
  · intro w f pref h
    rw [entity_postman_eq]
    rcases h with h | h <;> simp [h]

/-- C5 witness: the warp branch keeps the concrete leading segment
`"projects"` of `"projects - fish /home"`. -/
theorem C5_witness :
    MonitoredApp.entity (fun _ => true) "domain"
        { title := "projects - fish /home", url := none,
          info := { path := none, name := "Warp", execName := none } }
        (some { id := "warp", isBrowser := false, name := "Warp" }) =
      some "projects" := by
  have h := C5_amended_placeholder_titles.2.2.1
    { title := "projects - fish /home", url := none,
      info := { path := none, name := "Warp", execName := none } }
    (fun _ => true) "domain" (by decide) (by decide)
  simpa using h

/-- C6 counterexample: from the initial UpdateState, an "update available"
event for version "1.2.0" followed one second later (well inside the 7-day
window, with no intervening "update downloaded" event) by a second available
event for the same version triggers the download both times: the
"update-available" handler records nothing, so nothing suppresses the second
download. -/
theorem C6_counterexample :
    (Wakatime.onUpdateAvailable UpdateState.init "1.2.0" 1700000000000).2 = true ∧
    (Wakatime.onUpdateAvailable
        (Wakatime.onUpdateAvailable UpdateState.init "1.2.0" 1700000000000).1
        "1.2.0" 1700000001000).2 = true := by
  exact ⟨by decide, by decide⟩

/-- C6 amended: the per-version 7-day suppression keys off the prompt state
that only the "update-downloaded" handler records; with no intervening
downloaded event a second available event for the same version is not
suppressed (see the counterexample), but once a downloaded event for
"1.2.0" has recorded the prompt at time `t`, an available event for
"1.2.0" within the following 604800 seconds is suppressed while an
available event for "1.3.0" at the same moment is not. -/
theorem C6_amended_suppression_after_download :
    ∀ (s : UpdateState) (t now : Int),
      (Wakatime.onUpdateDownloaded s "1.2.0" t).2 = true →
      now ≤ t + 604800 * 1000 →
      (Wakatime.onUpdateAvailable
          (Wakatime.onUpdateDownloaded s "1.2.0" t).1 "1.2.0" now).2 = false ∧
      (Wakatime.onUpdateAvailable
          (Wakatime.onUpdateDownloaded s "1.2.0" t).1 "1.3.0" now).2 = true := by
  intro s t now hd hwin
  by_cases hc : Wakatime.canPromptToUpdate s "1.2.0" t = true
  · have hstate : (Wakatime.onUpdateDownloaded s "1.2.0" t).1 =
        { s with lastPromptedToUpdateVersion := "1.2.0", lastPromptedToUpdateAt := t } := by
      unfold Wakatime.onUpdateDownloaded
      simp [hc]
    rw [hstate]
    have hlate : ¬ (t + 604800000 < now) := by omega
    constructor
    · simp [Wakatime.onUpdateAvailable, Wakatime.canPromptToUpdate, hlate]
    · simp [Wakatime.onUpdateAvailable, Wakatime.canPromptToUpdate, hlate]
  · exfalso
    unfold Wakatime.onUpdateDownloaded at hd
    simp [hc] at hd

/-- C6 witness: after a downloaded event for "1.2.0" at a concrete epoch
time, an available event for "1.2.0" one second later is suppressed and an
available event for "1.3.0" is not. -/
theorem C6_witness :
    (Wakatime.onUpdateAvailable
        (Wakatime.onUpdateDownloaded UpdateState.init "1.2.0" 1700000000000).1
        "1.2.0" 1700000001000).2 = false ∧
    (Wakatime.onUpdateAvailable
        (Wakatime.onUpdateDownloaded UpdateState.init "1.2.0" 1700000000000).1
        "1.3.0" 1700000001000).2 = true :=
  C6_amended_suppression_after_download UpdateState.init 1700000000000
    1700000001000 (by decide) (by decide)

/-- C8 counterexample: a call whose pre-dispatch gate fails (the window path
is missing) but whose sample the throttle approves (a write) produces the
trace [consultThrottle, checkGate]: the throttle state is consulted first
and the gate is evaluated second, refuting the claim that a failing gate
short-circuits before the throttle state is even consulted. -/
theorem C8_counterexample :
    (Wakatime.sendHeartbeat (fun _ => true)
        { appData := none,
          windowInfo :=
            { title := "t", url := none,
              info := { path := none, name := "N", execName := none } },
          entity := "e", category := none, isWrite := true }
        1000 ThrottleState.init).trace =
      [HbStep.consultThrottle, HbStep.checkGate] := by
  decide

/-- C8 amended: when the pre-dispatch gate fails (missing or unmonitored
window path, or an empty resolved display name), `sendHeartbeat` returns
without dispatching and leaves the ThrottleState (last entity, last
category, last emission timestamp) unchanged; however the throttle decision
is evaluated before the gate, not after — whenever the throttle approves the
sample, the trace of a gate-failing call is [consultThrottle, checkGate]. -/
theorem C8_amended_gate_frame :
    ∀ (isMonitored : String → Bool) (props : HeartbeatProps) (time : ℚ)
      (s : ThrottleState),
      preDispatchGatePasses isMonitored props = false →
      (Wakatime.sendHeartbeat isMonitored props time s).sent = false ∧
      (Wakatime.sendHeartbeat isMonitored props time s).state = s ∧
      (shouldSendHeartbeat props.entity time props.isWrite
          (props.category.getD Category.coding) s = true →
        (Wakatime.sendHeartbeat isMonitored props time s).trace =
          [HbStep.consultThrottle, HbStep.checkGate]) := by
  intro isMonitored props time s hgate
  unfold Wakatime.sendHeartbeat
  by_cases ht : shouldSendHeartbeat props.entity time props.isWrite
      (props.category.getD Category.coding) s = true
  · simp [ht, hgate]
  · simp [ht, hgate]

/-- C8 witness: the concrete gate-failing, throttle-approved call of the
counterexample dispatches nothing and leaves the initial ThrottleState
intact. -/
theorem C8_witness :
    (Wakatime.sendHeartbeat (fun _ => true)
        { appData := none,
          windowInfo :=
            { title := "t", url := none,
              info := { path := none, name := "N", execName := none } },
          entity := "e", category := none, isWrite := true }
        1000 ThrottleState.init).sent = false ∧
    (Wakatime.sendHeartbeat (fun _ => true)
        { appData := none,
          windowInfo :=
            { title := "t", url := none,
              info := { path := none, name := "N", execName := none } },
          entity := "e", category := none, isWrite := true }
        1000 ThrottleState.init).state = ThrottleState.init := by
  have h := C8_amended_gate_frame (fun _ => true)
    { appData := none,
      windowInfo :=
        { title := "t", url := none,
          info := { path := none, name := "N", execName := none } },
      entity := "e", category := none, isWrite := true }
    1000 ThrottleState.init (by decide)
  exact ⟨h.1, h.2.1⟩

/-- Reduction of `project` to the pattern loop for a present URL (helper). -/
theorem project_some (url : String) (w : DesktopWindow) (hw : w.url = some url) :
    MonitoredApp.project w =
      if url = "" then none else projectLoop urlPatterns url.data := by
  unfold MonitoredApp.project
  rw [hw]

/-- The pattern loop returns none when every pattern's regex fails
(helper). -/
theorem projectLoop_eq_none (ps : List UrlPattern) (u : List Char)
    (h : ∀ p ∈ ps, p.expression.exec u = none) : projectLoop ps u = none := by
  induction ps with
  | nil => rfl
  | cons p rest ih =>
      have hp := h p (List.mem_cons_self p rest)
      unfold projectLoop
      rw [hp]
      exact ih fun q hq => h q (List.mem_cons_of_mem p hq)

/-- The pattern loop answers with the first matching pattern's capture: for
a decomposition `pre ++ p :: post` where everything in `pre` fails and `p`
matches, the loop returns `p`'s capture (helper). -/
theorem projectLoop_append_match (pre : List UrlPattern) (p : UrlPattern)
    (post : List UrlPattern) (u : List Char) (caps : List (Nat × List Char))
    (hpre : ∀ q ∈ pre, q.expression.exec u = none)
    (hp : p.expression.exec u = some caps) :
    projectLoop (pre ++ p :: post) u = (caps.lookup p.group).map String.mk := by
  induction pre with
  | nil =>
      simp only [List.nil_append]
      unfold projectLoop
      rw [hp]
  | cons q rest ih =>
      have hq := hpre q (List.mem_cons_self q rest)
      simp only [List.cons_append]
      unfold projectLoop
      rw [hq]
      exact ih fun r hr => hpre r (List.mem_cons_of_mem q hr)

/-- C7: `MonitoredApp.project` tries the fixed ordered pattern list (GitHub,
GitLab, Bitbucket owner/repo shapes, then CircleCI and the two Travis CI
shapes with a nested provider segment) and returns the repository capture of
the first pattern that matches; it returns null when the URL is absent or
when no pattern matches; for URL
`https://github.com/acme/widgets/pull/9` the project resolves to
`"widgets"`. -/
theorem C7_project_first_match :
    MonitoredApp.project
        { title := "t", url := some "https://github.com/acme/widgets/pull/9",
          info := { path := none, name := "B", execName := none } } =
      some "widgets" ∧
    (∀ w : DesktopWindow, w.url = none → MonitoredApp.project w = none) ∧
    (∀ (w : DesktopWindow) (url : String), w.url = some url → url ≠ "" →
      (∀ p ∈ urlPatterns, p.expression.exec url.data = none) →
      MonitoredApp.project w = none) ∧
    (∀ (w : DesktopWindow) (url : String), w.url = some url → url ≠ "" →
      ∀ (pre : List UrlPattern) (p : UrlPattern) (post : List UrlPattern),
        urlPatterns = pre ++ p :: post →
        (∀ q ∈ pre, q.expression.exec url.data = none) →
        ∀ caps : List (Nat × List Char), p.expression.exec url.data = some caps →
          MonitoredApp.project w = (caps.lookup p.group).map String.mk) := by
  refine ⟨by decide, ?_, ?_, ?_⟩
  · intro w hw
    unfold MonitoredApp.project
    rw [hw]
  · intro w url hw hne h
    rw [project_some url w hw, if_neg hne]
    exact projectLoop_eq_none _ _ h
  · intro w url hw hne pre p post hdec hpre caps hcaps
    rw [project_some url w hw, if_neg hne, hdec]
    exact projectLoop_append_match pre p post _ caps hpre hcaps

/-- C7 witness: a URL hosted on none of the recognised providers resolves
to a null project. -/
theorem C7_witness :
    MonitoredApp.project
        { title := "t", url := some "https://example.com/x",
          info := { path := none, name := "B", execName := none } } = none :=
  C7_project_first_match.2.2.1 _ "https://example.com/x" rfl (by decide)
    (by decide)

/-- Spawn characterisation of a single fetchToday call (helper). -/
theorem fetchToday_spawned_iff (flag : Bool) (time : ℚ) (cli : CliOutcome)
    (s : StatusCache) :
    (Wakatime.fetchToday flag time cli s).2 = true ↔
      (flag = true ∧ s.lastCodeTimeFetched + 120 ≤ time) := by
  unfold Wakatime.fetchToday
  rcases cli <;> split_ifs with h1 h2 <;> simp_all

/-- A spawning call stamps `lastCodeTimeFetched` with its time (helper). -/
theorem fetchToday_lf_of_spawned (flag : Bool) (time : ℚ) (cli : CliOutcome)
    (s : StatusCache) (h : (Wakatime.fetchToday flag time cli s).2 = true) :
    (Wakatime.fetchToday flag time cli s).1.lastCodeTimeFetched = time := by
  unfold Wakatime.fetchToday at h ⊢
  rcases cli <;> split_ifs at h ⊢ <;> simp_all

/-- One fetchToday call never decreases `lastCodeTimeFetched` (helper). -/
theorem fetchToday_lf_mono (flag : Bool) (time : ℚ) (cli : CliOutcome)
    (s : StatusCache) :
    s.lastCodeTimeFetched ≤
      (Wakatime.fetchToday flag time cli s).1.lastCodeTimeFetched := by
  unfold Wakatime.fetchToday
  rcases cli <;> split_ifs with h1 h2 <;> simp_all
  all_goals linarith

/-- A run of fetchToday calls never decreases `lastCodeTimeFetched`
(helper). -/
theorem fetchRun_lf_mono (calls : List FetchCall) (s : StatusCache) :
    s.lastCodeTimeFetched ≤ (fetchRun calls s).lastCodeTimeFetched := by
  induction calls generalizing s with
  | nil => exact le_refl _
  | cons c rest ih =>
      have h1 : s.lastCodeTimeFetched ≤ (fetchStep s c).lastCodeTimeFetched :=
        fetchToday_lf_mono c.showCodeTime c.time c.cli s
      exact le_trans h1 (ih (fetchStep s c))

/-- Unfolding a run one call past index i (helper). -/
theorem fetchRun_take_succ (calls : List FetchCall) (s : StatusCache) (i : Nat)
    (ci : FetchCall) (hci : calls[i]? = some ci) :
    fetchRun (calls.take (i + 1)) s = fetchStep (fetchRun (calls.take i) s) ci := by
  have h := List.take_succ (l := calls) (n := i)
  rw [hci] at h
  rw [fetchRun, h, List.foldl_append]
  rfl

/-- The stamped fetch timestamp is monotone along prefixes of a run
(helper). -/
theorem fetchRun_take_le (calls : List FetchCall) (s : StatusCache) (m n : Nat)
    (h : m ≤ n) :
    (fetchRun (calls.take m) s).lastCodeTimeFetched ≤
      (fetchRun (calls.take n) s).lastCodeTimeFetched := by
  have hn : n = m + (n - m) := by omega
  rw [hn, List.take_add]
  simp only [fetchRun]
  rw [List.foldl_append]
  exact fetchRun_lf_mono _ _

/-- C9: the today-summary status cache is refreshed at most once per 120
seconds.  Formalised as: across any sequence of fetchToday calls, any two
calls that spawn the summary CLI are at least 120 seconds apart (so any
half-open 120-second window contains at most one spawn), regardless of how
many calls occur and of whether previous spawns succeeded or failed (a spawn
stamps the cooldown before its outcome is known); within the cooldown window
the cached text is re-displayed unchanged; and a spawn whose CLI invocation
fails leaves both the cached text and the displayed text unchanged. -/
theorem C9_fetchToday_rate_limit :
    (∀ (calls : List FetchCall) (s : StatusCache) (i j : Nat) (ci cj : FetchCall),
      i < j → calls[i]? = some ci → calls[j]? = some cj →
      fetchSpawned calls s i = true → fetchSpawned calls s j = true →
      ci.time + 120 ≤ cj.time) ∧
    (∀ (time : ℚ) (cli : CliOutcome) (s : StatusCache),
      s.lastCodeTimeFetched + 120 > time →
      (Wakatime.fetchToday true time cli s).2 = false ∧
      (Wakatime.fetchToday true time cli s).1.trayTitle =
        " " ++ s.lastCodeTimeText ∧
      (Wakatime.fetchToday true time cli s).1.lastCodeTimeText =
        s.lastCodeTimeText) ∧
    (∀ (flag : Bool) (time : ℚ) (msg : String) (s : StatusCache),
      (Wakatime.fetchToday flag time (CliOutcome.err msg) s).2 = true →
      (Wakatime.fetchToday flag time (CliOutcome.err msg) s).1.lastCodeTimeText =
        s.lastCodeTimeText ∧
      (Wakatime.fetchToday flag time (CliOutcome.err msg) s).1.trayTitle =
        s.trayTitle) := by
  refine ⟨?_, ?_, ?_⟩
  · intro calls s i j ci cj hij hci hcj hsi hsj
    unfold fetchSpawned at hsi hsj
    rw [hci] at hsi
    rw [hcj] at hsj
    have hj := (fetchToday_spawned_iff _ _ _ _).mp hsj
    have h1 : (fetchRun (calls.take (i + 1)) s).lastCodeTimeFetched = ci.time := by
      rw [fetchRun_take_succ calls s i ci hci]
      exact fetchToday_lf_of_spawned _ _ _ _ hsi
    have h2 := fetchRun_take_le calls s (i + 1) j (by omega)
    rw [h1] at h2
    linarith [hj.2]
  · intro time cli s h
    unfold Wakatime.fetchToday
    rw [if_neg (by simp : ¬¬((true : Bool) = true)), if_pos h]
    exact ⟨rfl, rfl, rfl⟩
  · intro flag time msg s h
    unfold Wakatime.fetchToday at h ⊢
    split_ifs at h ⊢
    all_goals simp_all

/-- C9 witness: in a concrete two-call run both calls spawn (the second
arrives 500 seconds later, past the cooldown, and its CLI invocation fails),
and the two spawn times respect the 120-second spacing. -/
theorem C9_witness :
    fetchSpawned
        [{ showCodeTime := true, time := 1000, cli := CliOutcome.ok "2 hrs" },
         { showCodeTime := true, time := 1500, cli := CliOutcome.err "boom" }]
        { lastCodeTimeFetched := 0, lastCodeTimeText := "", trayTitle := "" }
        0 = true ∧
    fetchSpawned
        [{ showCodeTime := true, time := 1000, cli := CliOutcome.ok "2 hrs" },
         { showCodeTime := true, time := 1500, cli := CliOutcome.err "boom" }]
        { lastCodeTimeFetched := 0, lastCodeTimeText := "", trayTitle := "" }
        1 = true ∧
    (1000 : ℚ) + 120 ≤ 1500 := by
  have h0 : fetchSpawned
      [{ showCodeTime := true, time := 1000, cli := CliOutcome.ok "2 hrs" },
       { showCodeTime := true, time := 1500, cli := CliOutcome.err "boom" }]
      { lastCodeTimeFetched := 0, lastCodeTimeText := "", trayTitle := "" }
      0 = true := by
    show (Wakatime.fetchToday true 1000 (CliOutcome.ok "2 hrs")
      { lastCodeTimeFetched := 0, lastCodeTimeText := "", trayTitle := "" }).2 = true
    rw [fetchToday_spawned_iff]
    refine ⟨rfl, ?_⟩
    show (0 : ℚ) + 120 ≤ 1000
    norm_num
  have hs1 : (Wakatime.fetchToday true 1000 (CliOutcome.ok "2 hrs")
      { lastCodeTimeFetched := 0, lastCodeTimeText := "",
        trayTitle := "" }).1.lastCodeTimeFetched = 1000 := by
    apply fetchToday_lf_of_spawned
    rw [fetchToday_spawned_iff]
    refine ⟨rfl, ?_⟩
    show (0 : ℚ) + 120 ≤ 1000
    norm_num
  have h1 : fetchSpawned
      [{ showCodeTime := true, time := 1000, cli := CliOutcome.ok "2 hrs" },
       { showCodeTime := true, time := 1500, cli := CliOutcome.err "boom" }]
      { lastCodeTimeFetched := 0, lastCodeTimeText := "", trayTitle := "" }
      1 = true := by
    show (Wakatime.fetchToday true 1500 (CliOutcome.err "boom")
      (Wakatime.fetchToday true 1000 (CliOutcome.ok "2 hrs")
        { lastCodeTimeFetched := 0, lastCodeTimeText := "",
          trayTitle := "" }).1).2 = true
    rw [fetchToday_spawned_iff]
    refine ⟨rfl, ?_⟩
    rw [hs1]
    norm_num
  refine ⟨h0, h1, ?_⟩
  exact C9_fetchToday_rate_limit.1
    [{ showCodeTime := true, time := 1000, cli := CliOutcome.ok "2 hrs" },
     { showCodeTime := true, time := 1500, cli := CliOutcome.err "boom" }]
    { lastCodeTimeFetched := 0, lastCodeTimeText := "", trayTitle := "" }
    0 1
    { showCodeTime := true, time := 1000, cli := CliOutcome.ok "2 hrs" }
    { showCodeTime := true, time := 1500, cli := CliOutcome.err "boom" }
    (by omega) rfl rfl h0 h1

/-- C10: the documented precedence class → gtk id → process-name-else-title
does not hold in the code.  JavaScript gives `??` higher precedence than the
conditional operator, so the source computes
`(wmClass ?? gtkAppId ?? processPath) ? path.parse(processPath).name : title`:
with WM_CLASS `["navigator", "Navigator"]` present, no GTK id, and process
path `/usr/bin/firefox`, the code reports `firefox` (the process base name)
where the documented precedence requires the last WM_CLASS element
`Navigator`.  The multiline `??`-chain layout of the initialiser shows the
documented precedence is the intent and the missing parentheses the slip
(the specification flags exactly this as the open question to reproduce). -/
theorem C10_appName_precedence_bug :
    buildAppName (some ["navigator", "Navigator"]) none
        (some "/usr/bin/firefox") "Mozilla Firefox" =
      AppNameResult.ok "firefox" ∧
    buildAppNameDocumented (some ["navigator", "Navigator"]) none
        (some "/usr/bin/firefox") "Mozilla Firefox" = "Navigator" ∧
    AppNameResult.ok "firefox" ≠ AppNameResult.ok "Navigator" ∧
    buildAppName (some ["x", "X"]) none none "Raw Title" =
      AppNameResult.typeError := by
  exact ⟨by decide, by decide, by decide, by decide⟩

end DesktopWakatime
